import Mathlib

/-!
Verification of the detection→maturation pipeline orchestrator, the websocket
connection registry/scheduler, and the monitoring session manager of the
`fastapi-ia-tcc` repository, against its natural-language specification.

Each Python class is shallowly embedded: external collaborator calls (DynamoDB
reads/writes, inference calls, websocket sends) are modelled by an explicit
environment recording each call's outcome (`Except.error e` models the call
raising an exception with text `e`); background coroutines become pure
interpreters producing the trace of their observable effects.
-/

namespace Pipeline

/-- One detected object, from `src/shared/domain/entities/result.py`
(`DetectionResult`). Float confidences and box coordinates are modelled as
rationals. -/
structure DetectionItem where
  class_name : String
  confidence : ℚ
  bounding_box : List ℚ
  deriving Repr, DecidableEq

/-- The model-type enum from `src/shared/domain/enums/ia_model_type_enum.py`. -/
inductive ModelType where
  | detection
  | maturation
  deriving Repr, DecidableEq

/-- `ProcessingResult` from `src/shared/domain/entities/result.py`.
Timestamps, summary and result-image url are dropped: no claim mentions them. -/
structure ProcessingResult where
  request_id : String
  image_id : String
  model_type : ModelType
  results : List DetectionItem
  status : String
  error_message : Option String
  deriving Repr, DecidableEq

/-- Modelled from the spec: the `Image` entity
(`src/shared/domain/entities/image.py` is imported by
`combined_processing_usecase.py` but the file is absent from the sources).
Per spec §2/§4.1 it only supplies an image identity plus the url/user it was
built from; per §4.1 (`executeSynchronously`) its construction is the one step
that can fail before an image identity exists. -/
structure ImageE where
  image_id : String
  image_url : String
  user_id : String
  deriving Repr, DecidableEq

/-- The persisted processing-status record (the dict written by
`start_processing` / `_update_processing_status` in
`combined_processing_usecase.py`), restricted to the fields the claims
mention. `_update_processing_status` merges keyword updates into the stored
dict, so each write is modelled as a record update of the current record. -/
structure StatusRecord where
  status : String
  progress : ℚ
  image_id : Option String
  detection_complete : Bool
  maturation_complete : Bool
  combined_id : Option String
  error : Option String
  deriving Repr, DecidableEq

/-- `CombinedResult.__init__` from
`src/shared/domain/entities/combined_result.py`: the `status` field is derived
from the two stage results, and `results` merges them (maturation results if
present, else detection results). -/
structure CombinedResultE where
  image_id : String
  user_id : String
  detection_result : ProcessingResult
  maturation_result : Option ProcessingResult
  location : Option String
  combined_id : String
  status : String
  results : List DetectionItem
  deriving Repr, DecidableEq

/-- Constructor of `CombinedResult` (combined_result.py lines 11-56). -/
def mkCombinedResult (image_id user_id : String) (det : ProcessingResult)
    (mat : Option ProcessingResult) (location : Option String)
    (combined_id : String) : CombinedResultE :=
  { image_id := image_id
    user_id := user_id
    detection_result := det
    maturation_result := mat
    location := location
    combined_id := combined_id
    status :=
      match mat with
      | some m =>
          if m.status = "success" then "completed"
          else if det.status = "success" then "detection_completed" else "error"
      | none => if det.status = "success" then "detection_completed" else "error"
    results :=
      match mat with
      | none => det.results
      | some m => m.results }

/-- One entry of the `bounding_boxes` list built in
`combined_processing_usecase.py` lines 123-132 (and 199-208). -/
structure BoundingBoxEntry where
  index : Nat
  class_name : String
  confidence : ℚ
  bounding_box : List ℚ
  deriving Repr, DecidableEq

/-- The `bounding_boxes` list: the qualifying detections, enumerated. -/
def mkBoundingBoxes (valid : List DetectionItem) : List BoundingBoxEntry :=
  valid.enum.map (fun p => ⟨p.1, p.2.class_name, p.2.confidence, p.2.bounding_box⟩)

/-- One invocation of `IARepository.analyze_maturation_with_boxes` as made by
the use case (image, bounding boxes, and the detection run's request id as
parent correlation id). -/
structure MatCall where
  image_id : String
  bounding_boxes : List BoundingBoxEntry
  parent_request_id : String
  deriving Repr, DecidableEq

/-- Environment of one pipeline run: the outcome of each external collaborator
call, in program order. `Except.error e` models the call raising an exception
with text `e`. The status store itself is modelled as reliable: the record
lookup and the merge-writes of `_update_processing_status` succeed whenever
the record exists (`status0`); fresh uuids are supplied as fields. -/
structure RunEnv where
  status0 : Option StatusRecord
  mkImage : Except String ImageE
  saveImage : Except String Unit
  detect : Except String ProcessingResult
  saveDetection : Except String Unit
  maturation : Except String ProcessingResult
  saveMaturation : Except String Unit
  saveCombined : Except String Unit
  freshCombinedId : String
  freshReqId : String

/-- Caller-supplied arguments of `execute_in_background` / `execute` that the
claims depend on (the image url and metadata only feed the collaborator calls,
which the environment already abstracts). -/
structure BgArgs where
  user_id : String
  maturation_threshold : ℚ
  skip_maturation : Bool
  location : Option String

/-- Observable effects of one `execute_in_background` run: the sequence of
status records written (in write order), the maturation invocations, the
processing results and combined results persisted. -/
structure BgOutcome where
  writes : List StatusRecord
  matCalls : List MatCall
  savedResults : List ProcessingResult
  savedCombined : List CombinedResultE
  deriving Repr, DecidableEq

/-- The status write performed by the outermost exception handler
(combined_processing_usecase.py lines 161-163). -/
def errWrite (cur : StatusRecord) (e : String) : StatusRecord :=
  { cur with status := "error", progress := 1, error := some e }

/-- Final stage of `execute_in_background` (lines 145-157): build the combined
result, persist it, write the completed status; an exception raised by
`save_combined_result` falls to the outer handler. -/
def bgFinish (args : BgArgs) (env : RunEnv) (image : ImageE)
    (det : ProcessingResult) (mat : Option ProcessingResult)
    (cur : StatusRecord) (ws : List StatusRecord) (mats : List MatCall)
    (saved : List ProcessingResult) : BgOutcome :=
  let combined := mkCombinedResult image.image_id args.user_id det mat args.location env.freshCombinedId
  match env.saveCombined with
  | .error e => ⟨ws ++ [errWrite cur e], mats, saved, []⟩
  | .ok _ =>
      let cur' := { cur with
                    status := "completed", progress := 1,
                    combined_id := some combined.combined_id }
      ⟨ws ++ [cur'], mats, saved, [combined]⟩

/-- `CombinedProcessingUseCase.execute_in_background`
(combined_processing_usecase.py lines 60-163), as a function of its
environment. If the status record is missing at the initial lookup the run
aborts with no effects (lines 71-74); any exception from a collaborator call
is caught by the outermost handler, which writes `status="error"`,
`progress=1.0` (lines 161-163). -/
def execute_in_background (args : BgArgs) (env : RunEnv) : BgOutcome :=
  match env.status0 with
  | none => ⟨[], [], [], []⟩
  | some init =>
    let cur1 := { init with status := "processing", progress := 1/10 }
    match env.mkImage with
    | .error e => ⟨[cur1, errWrite cur1 e], [], [], []⟩
    | .ok image =>
      match env.saveImage with
      | .error e => ⟨[cur1, errWrite cur1 e], [], [], []⟩
      | .ok _ =>
        let cur2 := { cur1 with image_id := some image.image_id, progress := 2/10 }
        let cur3 := { cur2 with status := "detecting", progress := 3/10 }
        match env.detect with
        | .error e => ⟨[cur1, cur2, cur3, errWrite cur3 e], [], [], []⟩
        | .ok det =>
          match env.saveDetection with
          | .error e => ⟨[cur1, cur2, cur3, errWrite cur3 e], [], [], []⟩
          | .ok _ =>
            let cur4 := { cur3 with
                          detection_complete := true, progress := 5/10,
                          status := if args.skip_maturation then "detection_complete"
                                    else "detecting_maturation" }
            if det.status ≠ "success" ∨ det.results = [] then
              let combined := mkCombinedResult image.image_id args.user_id det none
                                args.location env.freshCombinedId
              match env.saveCombined with
              | .error e => ⟨[cur1, cur2, cur3, cur4, errWrite cur4 e], [], [det], []⟩
              | .ok _ =>
                let cur5 := { cur4 with
                              status := "completed", progress := 1,
                              combined_id := some combined.combined_id,
                              error := det.error_message }
                ⟨[cur1, cur2, cur3, cur4, cur5], [], [det], [combined]⟩
            else
              if args.skip_maturation = false ∧ det.results ≠ [] then
                let valid := det.results.filter (fun r => args.maturation_threshold ≤ r.confidence)
                if valid ≠ [] then
                  let cur5 := { cur4 with progress := 6/10 }
                  let call : MatCall := ⟨image.image_id, mkBoundingBoxes valid, det.request_id⟩
                  match env.maturation with
                  | .error e => ⟨[cur1, cur2, cur3, cur4, cur5, errWrite cur5 e], [call], [det], []⟩
                  | .ok m =>
                    match env.saveMaturation with
                    | .error e => ⟨[cur1, cur2, cur3, cur4, cur5, errWrite cur5 e], [call], [det], []⟩
                    | .ok _ =>
                      let cur6 := { cur5 with maturation_complete := true, progress := 8/10 }
                      bgFinish args env image det (some m) cur6
                        [cur1, cur2, cur3, cur4, cur5, cur6] [call] [det, m]
                else
                  bgFinish args env image det none cur4 [cur1, cur2, cur3, cur4] [] [det]
              else
                bgFinish args env image det none cur4 [cur1, cur2, cur3, cur4] [] [det]

/-- Observable outcome of the synchronous `execute`: the returned value or
re-raised exception, plus the persisted artifacts and maturation calls. -/
structure SyncOutcome where
  result : Except String CombinedResultE
  matCalls : List MatCall
  savedResults : List ProcessingResult
  savedCombined : List CombinedResultE
  deriving Repr

/-- The `CombinedResult` synthesized by the `except` branch of `execute`
(combined_processing_usecase.py lines 235-247): its detection side is an
error `ProcessingResult` with message `"Erro interno: " ++ e` and no
detections. -/
def synthErrorResult (args : BgArgs) (env : RunEnv) (image : ImageE)
    (e : String) : CombinedResultE :=
  mkCombinedResult image.image_id args.user_id
    ⟨env.freshReqId, image.image_id, .detection, [], "error", some ("Erro interno: " ++ e)⟩
    none args.location env.freshCombinedId

/-- Tail of `execute` (lines 220-230): build the combined result, persist it
and return it; a `save_combined_result` exception falls to the handler, which
synthesizes the error result (the `Image` exists at that point). -/
def syncFinish (args : BgArgs) (env : RunEnv) (image : ImageE)
    (det : ProcessingResult) (mat : Option ProcessingResult) (mats : List MatCall)
    (saved : List ProcessingResult) : SyncOutcome :=
  let combined := mkCombinedResult image.image_id args.user_id det mat args.location env.freshCombinedId
  match env.saveCombined with
  | .error e => ⟨.ok (synthErrorResult args env image e), mats, saved, []⟩
  | .ok _ => ⟨.ok combined, mats, saved, [combined]⟩

/-- `CombinedProcessingUseCase.execute` (combined_processing_usecase.py lines
165-248). Any exception raised after the `Image` object exists is converted
into a returned `CombinedResult` with a detection-side error; an exception
from the `Image` construction itself is re-raised (line 248: at that point
`"image" not in locals()`). -/
def execute (args : BgArgs) (env : RunEnv) : SyncOutcome :=
  match env.mkImage with
  | .error e => ⟨.error e, [], [], []⟩
  | .ok image =>
    match env.saveImage with
    | .error e => ⟨.ok (synthErrorResult args env image e), [], [], []⟩
    | .ok _ =>
      match env.detect with
      | .error e => ⟨.ok (synthErrorResult args env image e), [], [], []⟩
      | .ok det =>
        match env.saveDetection with
        | .error e => ⟨.ok (synthErrorResult args env image e), [], [], []⟩
        | .ok _ =>
          if det.status ≠ "success" ∨ det.results = [] then
            ⟨.ok (mkCombinedResult image.image_id args.user_id det none args.location
                env.freshCombinedId), [], [det], []⟩
          else
            if args.skip_maturation = false ∧ det.results ≠ [] then
              let valid := det.results.filter (fun r => args.maturation_threshold ≤ r.confidence)
              if valid ≠ [] then
                let call : MatCall := ⟨image.image_id, mkBoundingBoxes valid, det.request_id⟩
                match env.maturation with
                | .error e => ⟨.ok (synthErrorResult args env image e), [call], [det], []⟩
                | .ok m =>
                  match env.saveMaturation with
                  | .error e => ⟨.ok (synthErrorResult args env image e), [call], [det], []⟩
                  | .ok _ => syncFinish args env image det (some m) [call] [det, m]
              else
                syncFinish args env image det none [] [det]
            else
              syncFinish args env image det none [] [det]

/-- The first exception raised after the `Image` object exists, along the
path `execute` actually takes (`none` when no later step raises). Mirrors the
step order of `execute` (lines 178-228). -/
def firstLaterError (args : BgArgs) (env : RunEnv) : Option String :=
  match env.saveImage with
  | .error e => some e
  | .ok _ =>
    match env.detect with
    | .error e => some e
    | .ok det =>
      match env.saveDetection with
      | .error e => some e
      | .ok _ =>
        if det.status ≠ "success" ∨ det.results = [] then none
        else
          if args.skip_maturation = false ∧ det.results ≠ [] then
            if (det.results.filter fun r => args.maturation_threshold ≤ r.confidence) ≠ [] then
              match env.maturation with
              | .error e => some e
              | .ok _ =>
                match env.saveMaturation with
                | .error e => some e
                | .ok _ =>
                  match env.saveCombined with
                  | .error e => some e
                  | .ok _ => none
            else
              match env.saveCombined with
              | .error e => some e
              | .ok _ => none
          else
            match env.saveCombined with
            | .error e => some e
            | .ok _ => none

end Pipeline

namespace WS

/-- Status of an asyncio task as `ConnectionManager` observes it: `running`
(neither `done()` nor `cancelled()`), `cancelled` (after `task.cancel()`),
`done` (the coroutine returned). -/
inductive TaskStatus where
  | running
  | cancelled
  | done
  deriving Repr, DecidableEq

/-- One entry of the task pool: a scheduler-loop task's owning connection id
and its status. Task ids are indices into the pool, so a newly created task
always gets a fresh id. -/
structure TaskEntry where
  owner : String
  status : TaskStatus
  deriving Repr, DecidableEq

/-- The per-connection config dict created by `connect` and replaced wholesale
by `configure_monitoring` (websocket_manager.py lines 22-29 and 71-78).
`station_id`/`user_id` are `None` until configured; timestamps are opaque
strings. -/
structure WSConfig where
  interval_minutes : Int
  is_active : Bool
  station_id : Option String
  user_id : Option String
  last_capture : Option String
  connected_at : Option String
  deriving Repr, DecidableEq

/-- State of `ConnectionManager` (websocket_manager.py lines 12-16):
`active_connections`, `connection_configs` and `scheduled_tasks` as maps from
connection id (the websocket handle is abstracted to the key's presence),
plus the append-only pool of every task ever created. -/
structure WSState where
  active_connections : String → Bool
  connection_configs : String → Option WSConfig
  scheduled_tasks : String → Option Nat
  tasks : List TaskEntry

/-- Python truthiness of `config.get("station_id")` / `config.get("user_id")`
(websocket_manager.py line 94): `None` and the empty string are falsy. -/
def falsyStr : Option String → Bool
  | none => true
  | some s => s.isEmpty

/-- Effect on the pool of `task.cancel()` guarded by
`if not task.done() and not task.cancelled()` (lines 120-121), and likewise
of a running task completing on its own: entry `tid` moves from `running` to
`st` and every other entry is untouched. -/
def setRunningTo (l : List TaskEntry) (tid : Nat) (st : TaskStatus) : List TaskEntry :=
  match l[tid]? with
  | some t => if t.status = .running then l.set tid { t with status := st } else l
  | none => l

/-- `ConnectionManager._cancel_scheduled_task` (lines 117-122): if a task is
registered for the connection, cancel it when still running and drop the
registration. -/
def cancel_scheduled_task (s : WSState) (cid : String) : WSState :=
  match s.scheduled_tasks cid with
  | none => s
  | some tid =>
    { s with
      tasks := setRunningTo s.tasks tid .cancelled
      scheduled_tasks := fun c => if c = cid then none else s.scheduled_tasks c }

/-- `ConnectionManager._schedule_monitoring` (lines 124-128): cancel any
registered task first, then create and register a fresh running loop task. -/
def schedule_monitoring (s : WSState) (cid : String) : WSState :=
  let s1 := cancel_scheduled_task s cid
  { s1 with
    tasks := s1.tasks ++ [⟨cid, .running⟩]
    scheduled_tasks := fun c => if c = cid then some s1.tasks.length else s1.scheduled_tasks c }

/-- `ConnectionManager.connect` (lines 18-31): register the transport and the
default config (`interval 5`, inactive, no station/user); the `connected_at`
timestamp is the parameter `ts`. -/
def connect (s : WSState) (cid ts : String) : WSState :=
  { s with
    active_connections := fun c => c == cid || s.active_connections c
    connection_configs := fun c =>
      if c = cid then some ⟨5, false, none, none, none, some ts⟩
      else s.connection_configs c }

/-- `ConnectionManager.disconnect` (lines 33-38): when the id is known, cancel
its scheduled task and drop both the transport and the config entry;
otherwise a no-op. -/
def disconnect (s : WSState) (cid : String) : WSState :=
  if s.active_connections cid then
    let s1 := cancel_scheduled_task s cid
    { s1 with
      active_connections := fun c => if c = cid then false else s1.active_connections c
      connection_configs := fun c => if c = cid then none else s1.connection_configs c }
  else s

/-- `ConnectionManager.configure_monitoring` (lines 63-86): `false` for an
unknown connection; otherwise cancel the previous task, replace the config
wholesale (keeping `connected_at`; under the registry invariant the config
entry always exists here), and start a new loop only when `is_active`. -/
def configure_monitoring (s : WSState) (cid : String) (interval : Int)
    (station user : String) (is_active : Bool) : Bool × WSState :=
  if s.active_connections cid = false then (false, s)
  else
    let s1 := cancel_scheduled_task s cid
    let connected_at :=
      match s1.connection_configs cid with
      | some c => c.connected_at
      | none => none
    let s2 := { s1 with
      connection_configs := fun c =>
        if c = cid then some ⟨interval, is_active, some station, some user, none, connected_at⟩
        else s1.connection_configs c }
    if is_active then (true, schedule_monitoring s2 cid) else (true, s2)

/-- `ConnectionManager.start_monitoring` (lines 88-105): `false` when the id
is missing from `connection_configs` or when `station_id` or `user_id` is
Python-falsy; otherwise set `is_active` and (re)schedule the loop. -/
def start_monitoring (s : WSState) (cid : String) : Bool × WSState :=
  match s.connection_configs cid with
  | none => (false, s)
  | some config =>
    if falsyStr config.station_id || falsyStr config.user_id then (false, s)
    else
      let s1 := { s with
        connection_configs := fun c =>
          if c = cid then some { config with is_active := true } else s.connection_configs c }
      (true, schedule_monitoring s1 cid)

/-- `ConnectionManager.stop_monitoring` (lines 107-115): `false` when the id
is unknown; otherwise cancel the loop and clear `is_active`. -/
def stop_monitoring (s : WSState) (cid : String) : Bool × WSState :=
  match s.connection_configs cid with
  | none => (false, s)
  | some config =>
    let s1 := cancel_scheduled_task s cid
    (true,
     { s1 with
       connection_configs := fun c =>
         if c = cid then some { config with is_active := false } else s1.connection_configs c })

/-- `ConnectionManager.broadcast` (lines 51-61): best-effort send to every
connection; `failed` is the list of connection ids whose `send_json` raised,
each of which is then disconnected. -/
def broadcast (s : WSState) (failed : List String) : WSState :=
  failed.foldl disconnect s

/-- Environment event: a running scheduler-loop task finishes on its own (the
loop's normal exit and internal error paths, lines 130-157). -/
def finishTask (s : WSState) (tid : Nat) : WSState :=
  { s with tasks := setRunningTo s.tasks tid .done }

/-- One public operation on the connection manager, or the environment event
that a loop task completes. -/
inductive WSOp where
  | connect (cid ts : String)
  | disconnect (cid : String)
  | configure (cid : String) (interval : Int) (station user : String) (is_active : Bool)
  | startMon (cid : String)
  | stopMon (cid : String)
  | broadcast (failed : List String)
  | taskFinish (tid : Nat)

/-- Applying one operation to the manager state. -/
def step (s : WSState) : WSOp → WSState
  | .connect cid ts => connect s cid ts
  | .disconnect cid => disconnect s cid
  | .configure cid i st u a => (configure_monitoring s cid i st u a).2
  | .startMon cid => (start_monitoring s cid).2
  | .stopMon cid => (stop_monitoring s cid).2
  | .broadcast failed => broadcast s failed
  | .taskFinish tid => finishTask s tid

/-- The manager's initial state (module import time): no connections, no
tasks. -/
def initState : WSState := ⟨fun _ => false, fun _ => none, fun _ => none, []⟩

/-- Run a sequence of operations from the initial state. -/
def runOps (ops : List WSOp) : WSState := ops.foldl step initState

/-- Whether pool entry `i` is a running task owned by connection `cid`. -/
def isRunningFor (s : WSState) (cid : String) (i : Nat) : Bool :=
  match s.tasks[i]? with
  | some t => decide (t.owner = cid ∧ t.status = .running)
  | none => false

/-- The ids of the running tasks owned by connection `cid`. -/
def runningIdx (s : WSState) (cid : String) : List Nat :=
  (List.range s.tasks.length).filter (isRunningFor s cid)

/-- Scheduler bookkeeping invariant: every running task in the pool is the
task currently registered for its owner. -/
def SchedInv (s : WSState) : Prop :=
  ∀ i t, s.tasks[i]? = some t → t.status = .running →
    s.scheduled_tasks t.owner = some i

/-- Registry invariant of C10: `active_connections` and `connection_configs`
have the same key set, and `scheduled_tasks` keys are a subset of it. -/
def RegInv (s : WSState) : Prop :=
  (∀ c, s.active_connections c = true ↔ (s.connection_configs c).isSome = true) ∧
  (∀ c, (s.scheduled_tasks c).isSome = true → s.active_connections c = true)

end WS

namespace Monitoring

/-- `CaptureResult` entity (monitoring_session.py lines 6-53): ids are minted
by the caller (uuid in the source), timestamps are dropped (no claim mentions
them), metadata is a string map. -/
structure CaptureRec where
  capture_id : String
  image_id : String
  image_url : Option String
  result_ids : List String
  status : String
  metadata : List (String × String)
  deriving Repr, DecidableEq

/-- `MonitoringSession` entity (monitoring_session.py lines 56-122). -/
structure MonSession where
  session_id : String
  station_id : String
  user_id : String
  interval_minutes : Int
  start_time : String
  end_time : Option String
  active : Bool
  captures : List String
  metadata : List (String × String)
  deriving Repr, DecidableEq

/-- The slice of the DynamoDB table the monitoring repository touches: session
items keyed by (`STATION#<station_id>`, `SESSION#<session_id>`) and capture
items keyed by (`SESSION#<session_id>`, `CAPTURE#<capture_id>`), in insertion
order. A query returns items in sort-key order; no claim below depends on the
relative order of distinct items. -/
structure MonStore where
  sessions : List MonSession
  captures : List (String × CaptureRec)
  deriving Repr, DecidableEq

/-- `dynamo_client.put_item` for a session item: replace the item with the same
(pk, sk) key, else insert. -/
def putSession : List MonSession → MonSession → List MonSession
  | [], s => [s]
  | t :: ts, s =>
      if t.station_id = s.station_id ∧ t.session_id = s.session_id then s :: ts
      else t :: putSession ts s

/-- `dynamo_client.put_item` for a capture item keyed by (session id, capture
id). -/
def putCapture : List (String × CaptureRec) → String → CaptureRec → List (String × CaptureRec)
  | [], sid, c => [(sid, c)]
  | (s0, c0) :: ts, sid, c =>
      if s0 = sid ∧ c0.capture_id = c.capture_id then (sid, c) :: ts
      else (s0, c0) :: putCapture ts sid c

/-- The station half of the key used by `get_session_by_id`
(monitoring_repository.py line 71): the pk is the f-string
`STATION#{station_id}`, so a Python `None` station id is interpolated as the
literal string `None`. -/
def stationKey : Option String → String
  | none => "None"
  | some st => st

/-- `MonitoringRepository.get_session_by_id` (lines 69-82). -/
def get_session_by_id (store : MonStore) (station_id : Option String)
    (session_id : String) : Option MonSession :=
  store.sessions.find? fun t =>
    decide (t.station_id = stationKey station_id ∧ t.session_id = session_id)

/-- The Python `TypeError` raised when a call passes a keyword argument the
callee does not accept. -/
def typeErrorUnexpectedKwarg (fn kw : String) : String :=
  "TypeError: " ++ fn ++ " got an unexpected keyword argument " ++ kw

/-- `MonitoringRepository.get_active_session_by_station` (lines 84-100). The
call at lines 86-91 passes `filter_expression` and `expression_values` to
`DynamoClient.query_items`, whose signature (dynamo_client.py line 89)
accepts only `key_name`, `key_value` and `index_name`; Python therefore
raises `TypeError` on every invocation, before any query runs, and the
method's `except` logs and re-raises (lines 98-100). The filtered query the
code intends — the station's items filtered on `active = true`, first item if
any — never executes. -/
def get_active_session_by_station (store : MonStore) (station_id : String) :
    Except String (Option MonSession) :=
  .error (typeErrorUnexpectedKwarg "query_items" "filter_expression")

/-- `MonitoringRepository.save_monitoring_session` (lines 14-27). -/
def save_monitoring_session (store : MonStore) (session : MonSession) : MonStore :=
  { store with sessions := putSession store.sessions session }

/-- `MonitoringRepository.update_monitoring_session` (lines 29-48): read the
current item; when missing fall back to `save_monitoring_session`; either way
the net effect is a put of the session item under its key. -/
def update_monitoring_session (store : MonStore) (session : MonSession) : MonStore :=
  match get_session_by_id store (some session.station_id) session.session_id with
  | none => save_monitoring_session store session
  | some _ => { store with sessions := putSession store.sessions session }

/-- `MonitoringSetupUseCase.create_session` (monitoring_setup_usecase.py lines
15-39): its first await is `get_active_session_by_station` (line 20); the
`TypeError` that call raises propagates to the use case's `except`, which
logs and re-raises (lines 37-39). The deactivate-and-persist logic below
(lines 22-35: set `active=false`, `end_time=now`, persist the old session,
then construct and persist the new one) is translated from the source but is
unreachable, since the lookup raises first. On success the result would be
the new session, the resulting store, and the trace of session puts in
program order; `fresh_sid` is the minted uuid, `start_now`/`now` the two
`datetime.now()` calls. -/
def create_session (store : MonStore) (station_id user_id : String)
    (interval_minutes : Int) (metadata : List (String × String))
    (fresh_sid start_now now : String) :
    Except String (MonSession × MonStore × List MonSession) :=
  match get_active_session_by_station store station_id with
  | .error e => .error e
  | .ok existing =>
    let deactivated :=
      match existing with
      | some ex =>
          let ex' := { ex with active := false, end_time := some now }
          (update_monitoring_session store ex', [ex'])
      | none => (store, [])
    let session : MonSession :=
      ⟨fresh_sid, station_id, user_id, interval_minutes, start_now, none, true, [], metadata⟩
    .ok (session, save_monitoring_session deactivated.1 session, deactivated.2 ++ [session])

/-- `MonitoringRepository.get_capture_results` (lines 102-117): the session's
capture items, in store order. -/
def get_capture_results (store : MonStore) (session_id : String) : List CaptureRec :=
  (store.captures.filter fun p => decide (p.1 = session_id)).map Prod.snd

/-- `MonitoringRepository._update_session_captures` (lines 146-163): look the
session up under its station key and append the capture id when not already
present; when the session is missing, or the id is present, the store is
unchanged (the boolean result only feeds a log). -/
def update_session_captures (store : MonStore) (station_id : String)
    (session_id capture_id : String) : MonStore :=
  match get_session_by_id store (some station_id) session_id with
  | none => store
  | some session =>
      if capture_id ∈ session.captures then store
      else update_monitoring_session store
        { session with captures := session.captures ++ [capture_id] }

/-- `MonitoringRepository.save_capture_result` (lines 50-67): update the owning
session's capture list, then put the capture item. -/
def save_capture_result (store : MonStore) (station_id session_id : String)
    (cap : CaptureRec) : MonStore :=
  let store1 := update_session_captures store station_id session_id cap.capture_id
  { store1 with captures := putCapture store1.captures session_id cap }

/-- Python `dict.__setitem__` on an ordered string map: overwrite in place or
append. -/
def insertKV (l : List (String × String)) (k v : String) : List (String × String) :=
  match l with
  | [] => [(k, v)]
  | (k0, v0) :: ts => if k0 = k then (k, v) :: ts else (k0, v0) :: insertKV ts k v

/-- Python `dict.update`: shallow merge, right-biased, existing keys keep
their position. -/
def dictUpdate (old upd : List (String × String)) : List (String × String) :=
  upd.foldl (fun acc p => insertKV acc p.1 p.2) old

/-- `MonitoringScheduleUseCase.update_capture_status`
(monitoring_schedule_usecase.py lines 93-134). Line 121 passes
`station_id=None` to `get_session_by_id`, so the session lookup uses the pk
`STATION#None`. Python's `list(set(old + new))` has unspecified order; it is
modelled as `dedup` of the concatenation, one canonical ordering of the same
set. `if result_ids:` / `if metadata:` are Python truthiness tests, so `none`
and the empty collection both skip the merge. -/
def update_capture_status (store : MonStore) (session_id capture_id status : String)
    (result_ids : Option (List String)) (metadata : Option (List (String × String))) :
    Option CaptureRec × MonStore :=
  let captures := get_capture_results store session_id
  match captures.find? (fun c => decide (c.capture_id = capture_id)) with
  | none => (none, store)
  | some target =>
      let t1 := { target with status := status }
      let t2 :=
        match result_ids with
        | some rids =>
            if rids ≠ [] then { t1 with result_ids := (t1.result_ids ++ rids).dedup } else t1
        | none => t1
      let t3 :=
        match metadata with
        | some md => if md ≠ [] then { t2 with metadata := dictUpdate t2.metadata md } else t2
        | none => t2
      match get_session_by_id store none session_id with
      | none => (none, store)
      | some session =>
          (some t3, save_capture_result store session.station_id session_id t3)

/-- Capture-list wellformedness: no session's `captures` list holds duplicate
capture ids. -/
def NodupCaptures (store : MonStore) : Prop :=
  ∀ t ∈ store.sessions, t.captures.Nodup

end Monitoring

open Pipeline

set_option maxHeartbeats 3200000 in
/-- C1: for every execution of `execute_in_background`, the progress values
written to the run's status record are non-decreasing in write order, and —
whenever the run's status record exists, so that any write happens at all —
the final write carries `progress = 1.0` and status `"completed"` or
`"error"`. -/
theorem c1_background_progress_monotone_final (args : BgArgs) (env : RunEnv) :
    ((execute_in_background args env).writes.map (·.progress)).Chain' (· ≤ ·) ∧
    (env.status0.isSome →
      ∃ w, (execute_in_background args env).writes.getLast? = some w ∧
        w.progress = 1 ∧ (w.status = "completed" ∨ w.status = "error")) := by
  obtain ⟨st0, mkI, svI, det, svD, mat, svM, svC, fc, fr⟩ := env
  cases st0 <;> cases mkI <;> cases svI <;> cases det <;> cases svD <;>
    cases mat <;> cases svM <;> cases svC <;>
  simp only [execute_in_background, bgFinish, errWrite] <;>
  (try split_ifs) <;>
  (try simp_all [List.chain'_cons, errWrite]) <;>
  norm_num

/-- Closed witness for C1 at a concrete environment with an existing status
record and a failing detection call. -/
theorem c1_background_progress_monotone_final_witness :
    (Option.isSome (some (⟨"queued", 0, none, false, false, none, none⟩ : StatusRecord))) = true ∧
    ∃ w, (execute_in_background ⟨"u1", 6/10, false, none⟩
        ⟨some ⟨"queued", 0, none, false, false, none, none⟩, .ok ⟨"img1", "https://x/banana.jpg", "u1"⟩,
         .ok (), .error "boom", .ok (), .error "unused", .ok (), .ok (), "cid", "rid"⟩).writes.getLast?
        = some w ∧ w.progress = 1 ∧ (w.status = "completed" ∨ w.status = "error") := by
  refine ⟨rfl, ?_⟩
  exact (c1_background_progress_monotone_final ⟨"u1", 6/10, false, none⟩
    ⟨some ⟨"queued", 0, none, false, false, none, none⟩, .ok ⟨"img1", "https://x/banana.jpg", "u1"⟩,
     .ok (), .error "boom", .ok (), .error "unused", .ok (), .ok (), "cid", "rid"⟩).2 rfl

/-- C4: whenever the detection stage returns a non-success status or an empty
detection list (and the status record exists, the steps up to and including
detection succeed, and persisting the combined result succeeds), maturation is
never invoked, a `CombinedResult` carrying only the detection result is
persisted, and the final status write is `status="completed"` with the error
field set to the detection error message. -/
theorem c4_detection_failure_short_circuit (args : BgArgs) (env : RunEnv)
    (init : StatusRecord) (image : ImageE) (det : ProcessingResult)
    (h0 : env.status0 = some init)
    (h1 : env.mkImage = .ok image)
    (h2 : env.saveImage = .ok ())
    (h3 : env.detect = .ok det)
    (h4 : env.saveDetection = .ok ())
    (h5 : env.saveCombined = .ok ())
    (hfail : det.status ≠ "success" ∨ det.results = []) :
    (execute_in_background args env).matCalls = [] ∧
    (execute_in_background args env).savedCombined =
      [mkCombinedResult image.image_id args.user_id det none args.location env.freshCombinedId] ∧
    ∃ w, (execute_in_background args env).writes.getLast? = some w ∧
      w.status = "completed" ∧ w.progress = 1 ∧ w.error = det.error_message := by
  obtain ⟨st0, mkI, svI, dt, svD, mat, svM, svC, fc, fr⟩ := env
  dsimp only at h0 h1 h2 h3 h4 h5 ⊢
  subst h0 h1 h3
  rw [h2, h4]
  simp only [execute_in_background]
  rw [if_pos hfail, h5]
  refine ⟨rfl, rfl, ?_⟩
  simp

/-- Closed witness for C4: an environment whose detection call returns an
error-status result with no detections. -/
theorem c4_detection_failure_short_circuit_witness :
    (execute_in_background ⟨"u1", 6/10, false, none⟩
      ⟨some ⟨"queued", 0, none, false, false, none, none⟩,
       .ok ⟨"img1", "https://x/b.jpg", "u1"⟩, .ok (),
       .ok ⟨"req1", "img1", .detection, [], "error", some "detect failed"⟩,
       .ok (), .ok ⟨"req2", "img1", .maturation, [], "success", none⟩, .ok (), .ok (),
       "cid", "rid"⟩).matCalls = [] ∧
    ∃ w, (execute_in_background ⟨"u1", 6/10, false, none⟩
      ⟨some ⟨"queued", 0, none, false, false, none, none⟩,
       .ok ⟨"img1", "https://x/b.jpg", "u1"⟩, .ok (),
       .ok ⟨"req1", "img1", .detection, [], "error", some "detect failed"⟩,
       .ok (), .ok ⟨"req2", "img1", .maturation, [], "success", none⟩, .ok (), .ok (),
       "cid", "rid"⟩).writes.getLast? = some w ∧
      w.status = "completed" ∧ w.progress = 1 ∧ w.error = some "detect failed" := by
  have h := c4_detection_failure_short_circuit ⟨"u1", 6/10, false, none⟩
    ⟨some ⟨"queued", 0, none, false, false, none, none⟩,
     .ok ⟨"img1", "https://x/b.jpg", "u1"⟩, .ok (),
     .ok ⟨"req1", "img1", .detection, [], "error", some "detect failed"⟩,
     .ok (), .ok ⟨"req2", "img1", .maturation, [], "success", none⟩, .ok (), .ok (),
     "cid", "rid"⟩
    ⟨"queued", 0, none, false, false, none, none⟩
    ⟨"img1", "https://x/b.jpg", "u1"⟩
    ⟨"req1", "img1", .detection, [], "error", some "detect failed"⟩
    rfl rfl rfl rfl rfl rfl (by simp)
  exact ⟨h.1, h.2.2⟩

set_option maxHeartbeats 3200000 in
/-- Helper: with `skip_maturation = true` no execution path of
`execute_in_background` records a maturation invocation. -/
theorem bg_matCalls_nil_of_skip (args : BgArgs) (env : RunEnv)
    (h : args.skip_maturation = true) :
    (execute_in_background args env).matCalls = [] := by
  obtain ⟨st0, mkI, svI, dt, svD, mat, svM, svC, fc, fr⟩ := env
  cases st0 <;> cases mkI <;> cases svI <;> cases dt <;> cases svD <;>
    cases mat <;> cases svM <;> cases svC <;>
  simp only [execute_in_background, bgFinish] <;>
  (try split_ifs) <;>
  simp_all [bgFinish]

/-- C5: given a successful, non-empty detection result (and the run reaching
that point), maturation is invoked iff `skip_maturation` is false and some
detection has confidence at or above the threshold; when invoked, the single
call carries exactly the qualifying detections' enumerated boxes and the
detection result's request id as parent correlation id; when no detection
qualifies the run completes without writing any error; and with
`skip_maturation = true` the maturation call count is zero for every
environment and argument vector. -/
theorem c5_maturation_gating (args : BgArgs) (env : RunEnv)
    (init : StatusRecord) (image : ImageE) (det : ProcessingResult)
    (h0 : env.status0 = some init)
    (h1 : env.mkImage = .ok image)
    (h2 : env.saveImage = .ok ())
    (h3 : env.detect = .ok det)
    (h4 : env.saveDetection = .ok ())
    (hok : det.status = "success") (hne : det.results ≠ []) :
    ((execute_in_background args env).matCalls ≠ [] ↔
      args.skip_maturation = false ∧
        ∃ r ∈ det.results, args.maturation_threshold ≤ r.confidence) ∧
    ((execute_in_background args env).matCalls ≠ [] →
      (execute_in_background args env).matCalls =
        [⟨image.image_id,
          mkBoundingBoxes (det.results.filter (fun r => args.maturation_threshold ≤ r.confidence)),
          det.request_id⟩]) ∧
    (args.skip_maturation = false →
      det.results.filter (fun r => args.maturation_threshold ≤ r.confidence) = [] →
      env.saveCombined = .ok () →
      ∃ w, (execute_in_background args env).writes.getLast? = some w ∧
        w.status = "completed" ∧ w.error = init.error) ∧
    (∀ (args2 : BgArgs) (env2 : RunEnv), args2.skip_maturation = true →
      (execute_in_background args2 env2).matCalls = []) := by
  obtain ⟨st0, mkI, svI, dt, svD, mat, svM, svC, fc, fr⟩ := env
  dsimp only at h0 h1 h2 h3 h4 ⊢
  subst h0 h1 h3
  rw [h2, h4]
  have hcond : ¬(det.status ≠ "success" ∨ det.results = []) := by
    push_neg
    exact ⟨hok, hne⟩
  have hex : ((det.results.filter fun r => args.maturation_threshold ≤ r.confidence) ≠ []) ↔
      ∃ r ∈ det.results, args.maturation_threshold ≤ r.confidence := by
    simp [List.filter_eq_nil_iff]
  have hcallpos : ∀ (hsk : args.skip_maturation = false)
      (hval : (det.results.filter fun r => args.maturation_threshold ≤ r.confidence) ≠ []),
      (execute_in_background args
        ⟨some init, .ok image, .ok (), .ok det, .ok (), mat, svM, svC, fc, fr⟩).matCalls =
        [⟨image.image_id,
          mkBoundingBoxes (det.results.filter (fun r => args.maturation_threshold ≤ r.confidence)),
          det.request_id⟩] := by
    intro hsk hval
    simp only [execute_in_background]
    rw [if_neg hcond, if_pos ⟨hsk, hne⟩, if_pos hval]
    cases mat with
    | error e => simp
    | ok m =>
      cases svM with
      | error e => simp
      | ok u => cases svC <;> simp [bgFinish]
  have hcallneg : ∀ (hsk : args.skip_maturation = false)
      (hval : (det.results.filter fun r => args.maturation_threshold ≤ r.confidence) = []),
      (execute_in_background args
        ⟨some init, .ok image, .ok (), .ok det, .ok (), mat, svM, svC, fc, fr⟩).matCalls = [] := by
    intro hsk hval
    simp only [execute_in_background]
    rw [if_neg hcond, if_pos ⟨hsk, hne⟩, if_neg (not_not_intro hval)]
    cases svC <;> simp [bgFinish]
  refine ⟨?_, ?_, ?_, fun args2 env2 hskip => bg_matCalls_nil_of_skip args2 env2 hskip⟩
  · constructor
    · intro hne'
      rcases Bool.eq_false_or_eq_true args.skip_maturation with hsk | hsk
      · rw [bg_matCalls_nil_of_skip args _ hsk] at hne'
        exact absurd rfl hne'
      · by_cases hval : (det.results.filter fun r => args.maturation_threshold ≤ r.confidence) = []
        · rw [hcallneg hsk hval] at hne'
          exact absurd rfl hne'
        · exact ⟨hsk, hex.mp hval⟩
    · rintro ⟨hsk, hex'⟩
      rw [hcallpos hsk (hex.mpr hex')]
      simp
  · intro hne'
    rcases Bool.eq_false_or_eq_true args.skip_maturation with hsk | hsk
    · rw [bg_matCalls_nil_of_skip args _ hsk] at hne'
      exact absurd rfl hne'
    · by_cases hval : (det.results.filter fun r => args.maturation_threshold ≤ r.confidence) = []
      · rw [hcallneg hsk hval] at hne'
        exact absurd rfl hne'
      · exact hcallpos hsk hval
  · intro hsk hval h5
    subst h5
    simp only [execute_in_background]
    rw [if_neg hcond, if_pos ⟨hsk, hne⟩, if_neg (not_not_intro hval)]
    simp only [bgFinish]
    exact ⟨_, List.getLast?_concat _, rfl, rfl⟩

/-- Closed witness for C5: a successful one-detection result at confidence
`95/100` with default threshold `6/10`; the derived conclusions are evaluated
at that environment. -/
theorem c5_maturation_gating_witness :
    (execute_in_background ⟨"u1", 6/10, false, none⟩
      ⟨some ⟨"queued", 0, none, false, false, none, none⟩,
       .ok ⟨"img1", "https://x/b.jpg", "u1"⟩, .ok (),
       .ok ⟨"req1", "img1", .detection, [⟨"banana", 95/100, [0, 0, 1, 1]⟩], "success", none⟩,
       .ok (), .ok ⟨"req2", "img1", .maturation, [⟨"banana", 95/100, [0, 0, 1, 1]⟩], "success", none⟩,
       .ok (), .ok (), "cid", "rid"⟩).matCalls =
      [⟨"img1", [⟨0, "banana", 95/100, [0, 0, 1, 1]⟩], "req1"⟩] := by
  have h := c5_maturation_gating ⟨"u1", 6/10, false, none⟩
    ⟨some ⟨"queued", 0, none, false, false, none, none⟩,
     .ok ⟨"img1", "https://x/b.jpg", "u1"⟩, .ok (),
     .ok ⟨"req1", "img1", .detection, [⟨"banana", 95/100, [0, 0, 1, 1]⟩], "success", none⟩,
     .ok (), .ok ⟨"req2", "img1", .maturation, [⟨"banana", 95/100, [0, 0, 1, 1]⟩], "success", none⟩,
     .ok (), .ok (), "cid", "rid"⟩
    ⟨"queued", 0, none, false, false, none, none⟩
    ⟨"img1", "https://x/b.jpg", "u1"⟩
    ⟨"req1", "img1", .detection, [⟨"banana", 95/100, [0, 0, 1, 1]⟩], "success", none⟩
    rfl rfl rfl rfl rfl rfl (by simp)
  have hne : (execute_in_background ⟨"u1", 6/10, false, none⟩
      ⟨some ⟨"queued", 0, none, false, false, none, none⟩,
       .ok ⟨"img1", "https://x/b.jpg", "u1"⟩, .ok (),
       .ok ⟨"req1", "img1", .detection, [⟨"banana", 95/100, [0, 0, 1, 1]⟩], "success", none⟩,
       .ok (), .ok ⟨"req2", "img1", .maturation, [⟨"banana", 95/100, [0, 0, 1, 1]⟩], "success", none⟩,
       .ok (), .ok (), "cid", "rid"⟩).matCalls ≠ [] := by
    rw [h.1]
    exact ⟨rfl, ⟨"banana", 95/100, [0, 0, 1, 1]⟩, by simp, by norm_num⟩
  have := h.2.1 hne
  rw [this]
  norm_num [mkBoundingBoxes]

set_option maxHeartbeats 3200000 in
/-- C7: whenever a step of the synchronous `execute` raises, the call returns
(instead of propagating) a `CombinedResult` whose detection side has
`status="error"` and an error message containing the exception text — except
when the failure happened at the `Image` construction itself, i.e. before an
image identity existed, in which case the exception is re-raised. -/
theorem c7_sync_exception_conversion (args : BgArgs) (env : RunEnv) :
    (∀ e, env.mkImage = .error e → (execute args env).result = .error e) ∧
    (∀ image, env.mkImage = .ok image → ∃ c, (execute args env).result = .ok c) ∧
    (∀ image e, env.mkImage = .ok image → firstLaterError args env = some e →
      (execute args env).result = .ok (synthErrorResult args env image e) ∧
      (synthErrorResult args env image e).detection_result.status = "error" ∧
      (synthErrorResult args env image e).detection_result.error_message =
        some ("Erro interno: " ++ e)) := by
  obtain ⟨st0, mkI, svI, dt, svD, mat, svM, svC, fc, fr⟩ := env
  refine ⟨?_, ?_, ?_⟩
  · intro e he
    dsimp only at he
    subst he
    rfl
  · intro image him
    dsimp only at him
    subst him
    cases svI <;> cases dt <;> cases svD <;> cases mat <;> cases svM <;> cases svC <;>
    simp only [execute, syncFinish] <;>
    (try split_ifs) <;>
    exact ⟨_, rfl⟩
  · intro image e him hfl
    dsimp only at him
    subst him
    cases svI <;> cases dt <;> cases svD <;> cases mat <;> cases svM <;> cases svC <;>
    simp only [execute, syncFinish, firstLaterError] at hfl ⊢ <;>
    (try split_ifs at hfl ⊢) <;>
    simp_all [synthErrorResult, mkCombinedResult]

/-- Closed witness for C7: re-raise when the image construction fails, and
conversion when the detection call fails after the image exists. -/
theorem c7_sync_exception_conversion_witness :
    (execute ⟨"u1", 6/10, false, none⟩
      ⟨none, .error "invalid url", .ok (), .ok ⟨"r", "i", .detection, [], "success", none⟩,
       .ok (), .ok ⟨"r2", "i", .maturation, [], "success", none⟩, .ok (), .ok (),
       "cid", "rid"⟩).result = .error "invalid url" ∧
    (execute ⟨"u1", 6/10, false, none⟩
      ⟨none, .ok ⟨"img1", "https://x/b.jpg", "u1"⟩, .ok (), .error "detect down",
       .ok (), .ok ⟨"r2", "i", .maturation, [], "success", none⟩, .ok (), .ok (),
       "cid", "rid"⟩).result =
      .ok (synthErrorResult ⟨"u1", 6/10, false, none⟩
        ⟨none, .ok ⟨"img1", "https://x/b.jpg", "u1"⟩, .ok (), .error "detect down",
         .ok (), .ok ⟨"r2", "i", .maturation, [], "success", none⟩, .ok (), .ok (),
         "cid", "rid"⟩ ⟨"img1", "https://x/b.jpg", "u1"⟩ "detect down") := by
  constructor
  · exact (c7_sync_exception_conversion ⟨"u1", 6/10, false, none⟩
      ⟨none, .error "invalid url", .ok (), .ok ⟨"r", "i", .detection, [], "success", none⟩,
       .ok (), .ok ⟨"r2", "i", .maturation, [], "success", none⟩, .ok (), .ok (),
       "cid", "rid"⟩).1 "invalid url" rfl
  · exact ((c7_sync_exception_conversion ⟨"u1", 6/10, false, none⟩
      ⟨none, .ok ⟨"img1", "https://x/b.jpg", "u1"⟩, .ok (), .error "detect down",
       .ok (), .ok ⟨"r2", "i", .maturation, [], "success", none⟩, .ok (), .ok (),
       "cid", "rid"⟩).2.2 ⟨"img1", "https://x/b.jpg", "u1"⟩ "detect down" rfl rfl).1

open WS

/-- Helper: a pool entry that is running after `setRunningTo l tid st` (with
`st ≠ running`) was already running at the same index, and that index is not
`tid`. -/
theorem setRunningTo_running {l : List TaskEntry} {tid i : Nat} {st : TaskStatus}
    {t : TaskEntry} (hst : st ≠ .running)
    (hget : (setRunningTo l tid st)[i]? = some t) (hrun : t.status = .running) :
    l[i]? = some t ∧ i ≠ tid := by
  unfold setRunningTo at hget
  cases htid : l[tid]? with
  | none =>
    rw [htid] at hget
    refine ⟨hget, ?_⟩
    rintro rfl
    rw [htid] at hget
    cases hget
  | some t0 =>
    rw [htid] at hget
    dsimp only at hget
    by_cases hr0 : t0.status = .running
    · rw [if_pos hr0] at hget
      by_cases hit : i = tid
      · subst hit
        have hlt : i < l.length := (List.getElem?_eq_some.mp htid).1
        have hset : (l.set i { t0 with status := st })[i]? = some { t0 with status := st } := by
          simp [List.getElem?_set_self, hlt]
        rw [hset] at hget
        injection hget with h'
        subst h'
        exact absurd hrun hst
      · rw [List.getElem?_set_ne (Ne.symm hit)] at hget
        exact ⟨hget, hit⟩
    · rw [if_neg hr0] at hget
      refine ⟨hget, ?_⟩
      rintro rfl
      rw [htid] at hget
      injection hget with h'
      subst h'
      exact hr0 hrun

/-- Helper: `_cancel_scheduled_task` clears the connection's registration. -/
theorem cancel_scheduled_self (s : WSState) (cid : String) :
    (cancel_scheduled_task s cid).scheduled_tasks cid = none := by
  unfold cancel_scheduled_task
  cases hsc : s.scheduled_tasks cid with
  | none => exact hsc
  | some tid => simp

/-- Helper: `_cancel_scheduled_task` preserves the scheduler invariant. -/
theorem schedInv_cancel (s : WSState) (cid : String) (h : SchedInv s) :
    SchedInv (cancel_scheduled_task s cid) := by
  unfold cancel_scheduled_task
  cases hsc : s.scheduled_tasks cid with
  | none => exact h
  | some tid =>
    intro i t hget hrun
    dsimp at hget ⊢
    obtain ⟨hget', hne⟩ := setRunningTo_running (by decide) hget hrun
    have hreg := h i t hget' hrun
    by_cases howner : t.owner = cid
    · rw [howner, hsc] at hreg
      injection hreg with h'
      exact absurd h'.symm hne
    · rw [if_neg howner]
      exact hreg

/-- Helper: `_schedule_monitoring` preserves the scheduler invariant. -/
theorem schedInv_schedule (s : WSState) (cid : String) (h : SchedInv s) :
    SchedInv (schedule_monitoring s cid) := by
  have h1 := schedInv_cancel s cid h
  unfold schedule_monitoring
  intro i t hget hrun
  dsimp at hget ⊢
  by_cases hlt : i < (cancel_scheduled_task s cid).tasks.length
  · rw [List.getElem?_append, if_pos hlt] at hget
    have hreg := h1 i t hget hrun
    by_cases howner : t.owner = cid
    · rw [howner, cancel_scheduled_self] at hreg
      cases hreg
    · rw [if_neg howner]
      exact hreg
  · have hlen : i < (cancel_scheduled_task s cid).tasks.length + 1 := by
      have hx := (List.getElem?_eq_some.mp hget).1
      simpa using hx
    have hieq : i = (cancel_scheduled_task s cid).tasks.length := by omega
    subst hieq
    rw [List.getElem?_concat_length] at hget
    injection hget with h'
    subst h'
    simp

/-- Helper: `disconnect` preserves the scheduler invariant. -/
theorem schedInv_disconnect (s : WSState) (cid : String) (h : SchedInv s) :
    SchedInv (disconnect s cid) := by
  unfold disconnect
  split
  · exact schedInv_cancel s cid h
  · exact h

/-- Helper: `broadcast`'s fold of disconnects preserves the scheduler
invariant. -/
theorem schedInv_foldl_disconnect (l : List String) (s : WSState) (h : SchedInv s) :
    SchedInv (l.foldl disconnect s) := by
  induction l generalizing s with
  | nil => exact h
  | cons a l ih => exact ih _ (schedInv_disconnect s a h)

/-- Helper: a loop task finishing on its own preserves the scheduler
invariant. -/
theorem schedInv_finish (s : WSState) (tid : Nat) (h : SchedInv s) :
    SchedInv (finishTask s tid) := by
  unfold finishTask
  intro i t hget hrun
  dsimp at hget ⊢
  obtain ⟨hget', -⟩ := setRunningTo_running (by decide) hget hrun
  exact h i t hget' hrun

/-- Helper: every operation preserves the scheduler invariant. -/
theorem schedInv_step (s : WSState) (op : WSOp) (h : SchedInv s) :
    SchedInv (step s op) := by
  cases op with
  | connect cid ts => exact h
  | disconnect cid => exact schedInv_disconnect s cid h
  | configure cid i st u a =>
    dsimp [step]
    unfold configure_monitoring
    by_cases hact : s.active_connections cid = false
    · rw [if_pos hact]
      exact h
    · rw [if_neg hact]
      dsimp only
      by_cases hia : a = true
      · rw [if_pos hia]
        exact schedInv_schedule _ cid (schedInv_cancel s cid h)
      · rw [if_neg hia]
        exact schedInv_cancel s cid h
  | startMon cid =>
    dsimp [step]
    unfold start_monitoring
    cases hcfg : s.connection_configs cid with
    | none => exact h
    | some cfg =>
      dsimp only
      by_cases hf : (falsyStr cfg.station_id || falsyStr cfg.user_id) = true
      · rw [if_pos hf]
        exact h
      · rw [if_neg hf]
        exact schedInv_schedule _ cid h
  | stopMon cid =>
    dsimp [step]
    unfold stop_monitoring
    cases hcfg : s.connection_configs cid with
    | none => exact h
    | some cfg => exact schedInv_cancel s cid h
  | broadcast failed => exact schedInv_foldl_disconnect failed s h
  | taskFinish tid => exact schedInv_finish s tid h

/-- Helper: the initial state satisfies the scheduler invariant. -/
theorem schedInv_init : SchedInv initState := by
  intro i t hget hrun
  simp [initState] at hget

/-- Helper: every reachable state satisfies the scheduler invariant. -/
theorem schedInv_runOps (ops : List WSOp) : SchedInv (runOps ops) := by
  have haux : ∀ (l : List WSOp) (s : WSState), SchedInv s → SchedInv (l.foldl step s) := by
    intro l
    induction l with
    | nil => exact fun _ h => h
    | cons op l ih => exact fun s h => ih _ (schedInv_step s op h)
  exact haux ops initState schedInv_init

/-- Helper: under the scheduler invariant, a connection owns at most one
running loop task. -/
theorem runningIdx_subsingleton (s : WSState) (h : SchedInv s) (cid : String) :
    (runningIdx s cid).length ≤ 1 := by
  have hmem : ∀ a ∈ runningIdx s cid, s.scheduled_tasks cid = some a := by
    intro a ha
    unfold runningIdx at ha
    rw [List.mem_filter] at ha
    obtain ⟨-, hpred⟩ := ha
    unfold isRunningFor at hpred
    cases hta : s.tasks[a]? with
    | none =>
      rw [hta] at hpred
      cases hpred
    | some t =>
      rw [hta] at hpred
      have hp := of_decide_eq_true hpred
      have hsch := h a t hta hp.2
      rw [hp.1] at hsch
      exact hsch
  cases hl : runningIdx s cid with
  | nil => simp
  | cons a l' =>
    cases l' with
    | nil => simp
    | cons b l'' =>
      exfalso
      have ha := hmem a (by rw [hl]; exact List.mem_cons_self _ _)
      have hb := hmem b (by rw [hl]; simp)
      have hab : a = b := by
        rw [ha] at hb
        injection hb
      have hnodup : (runningIdx s cid).Nodup :=
        List.Nodup.filter _ (List.nodup_range _)
      rw [hl] at hnodup
      subst hab
      exact (List.nodup_cons.mp hnodup).1 (List.mem_cons_self _ _)

/-- C3: for every connection id and every sequence of connection-manager
operations (connect, disconnect, configure, start/stop monitoring, broadcast,
and loop tasks completing), at most one scheduler loop task for that
connection is running — neither cancelled nor completed — at any time, since
every operation that starts a loop cancels the previously registered task
first. -/
theorem c3_at_most_one_running_loop (ops : List WSOp) (cid : String) :
    (runningIdx (runOps ops) cid).length ≤ 1 :=
  runningIdx_subsingleton (runOps ops) (schedInv_runOps ops) cid

/-- Helper: `_cancel_scheduled_task` does not touch `active_connections`. -/
theorem cancel_active (s : WSState) (cid : String) :
    (cancel_scheduled_task s cid).active_connections = s.active_connections := by
  unfold cancel_scheduled_task
  cases s.scheduled_tasks cid <;> rfl

/-- Helper: `_cancel_scheduled_task` does not touch `connection_configs`. -/
theorem cancel_configs (s : WSState) (cid : String) :
    (cancel_scheduled_task s cid).connection_configs = s.connection_configs := by
  unfold cancel_scheduled_task
  cases s.scheduled_tasks cid <;> rfl

/-- Helper: `_cancel_scheduled_task` leaves other connections' registrations
alone. -/
theorem cancel_scheduled_other (s : WSState) (cid c : String) (hne : c ≠ cid) :
    (cancel_scheduled_task s cid).scheduled_tasks c = s.scheduled_tasks c := by
  unfold cancel_scheduled_task
  cases s.scheduled_tasks cid with
  | none => rfl
  | some tid => simp [hne]

/-- Helper: `_schedule_monitoring` does not touch `active_connections`. -/
theorem schedule_active (s : WSState) (cid : String) :
    (schedule_monitoring s cid).active_connections = s.active_connections := by
  unfold schedule_monitoring cancel_scheduled_task
  cases s.scheduled_tasks cid <;> rfl

/-- Helper: `_schedule_monitoring` does not touch `connection_configs`. -/
theorem schedule_configs (s : WSState) (cid : String) :
    (schedule_monitoring s cid).connection_configs = s.connection_configs := by
  unfold schedule_monitoring cancel_scheduled_task
  cases s.scheduled_tasks cid <;> rfl

/-- Helper: after `_schedule_monitoring` the connection is registered to the
freshly appended running task. -/
theorem schedule_registers (s : WSState) (cid : String) :
    ∃ tid, (schedule_monitoring s cid).scheduled_tasks cid = some tid ∧
      (schedule_monitoring s cid).tasks[tid]? = some ⟨cid, TaskStatus.running⟩ := by
  refine ⟨(cancel_scheduled_task s cid).tasks.length, ?_, ?_⟩
  · unfold schedule_monitoring
    simp
  · unfold schedule_monitoring
    exact List.getElem?_concat_length _ _

/-- C8 counterexample: a known connection whose config has a station id but no
user id. The claim predicts `start_monitoring` returns `true` there (the
config does not lack *both* fields); the code returns `false` because it
requires each of `station_id` and `user_id` to be truthy. -/
theorem c8_counterexample :
    (start_monitoring
      ⟨fun c => c == "c1",
       fun c => if c == "c1" then some ⟨5, false, some "st1", none, none, none⟩ else none,
       fun _ => none, []⟩ "c1").1 = false ∧
    (WSState.connection_configs
      ⟨fun c => c == "c1",
       fun c => if c == "c1" then some ⟨5, false, some "st1", none, none, none⟩ else none,
       fun _ => none, []⟩ "c1" = some ⟨5, false, some "st1", none, none, none⟩) ∧
    falsyStr (some "st1") = false ∧ falsyStr (none : Option String) = true := by
  refine ⟨?_, ?_, rfl, rfl⟩ <;> rfl

/-- C8 (amended): `start_monitoring` returns `false` exactly when the
connection id is unknown to `connection_configs` **or** its config lacks
`station_id` **or** lacks `user_id` (each checked for Python truthiness
separately — not only when both are missing); in every other case it sets the
config's `is_active` flag, registers a fresh running loop task for the
connection, and returns `true`. -/
theorem c8_start_monitoring_amended (s : WSState) (cid : String) :
    ((start_monitoring s cid).1 = false ↔
      s.connection_configs cid = none ∨
        ∃ cfg, s.connection_configs cid = some cfg ∧
          (falsyStr cfg.station_id = true ∨ falsyStr cfg.user_id = true)) ∧
    (∀ cfg, s.connection_configs cid = some cfg →
      falsyStr cfg.station_id = false → falsyStr cfg.user_id = false →
      (start_monitoring s cid).1 = true ∧
      (start_monitoring s cid).2.connection_configs cid = some { cfg with is_active := true } ∧
      ∃ tid, (start_monitoring s cid).2.scheduled_tasks cid = some tid ∧
        (start_monitoring s cid).2.tasks[tid]? = some ⟨cid, TaskStatus.running⟩) := by
  unfold start_monitoring
  cases hcfg : s.connection_configs cid with
  | none =>
    dsimp only
    refine ⟨⟨fun _ => Or.inl rfl, fun _ => rfl⟩, ?_⟩
    intro cfg hc
    cases hc
  | some cfg =>
    dsimp only
    by_cases hf : (falsyStr cfg.station_id || falsyStr cfg.user_id) = true
    · rw [if_pos hf]
      refine ⟨⟨fun _ => Or.inr ⟨cfg, rfl, by simpa using hf⟩, fun _ => rfl⟩, ?_⟩
      intro cfg' hc' hst hu
      injection hc' with hcc
      subst hcc
      simp [hst, hu] at hf
    · rw [if_neg hf]
      dsimp only
      constructor
      · constructor
        · intro hfalse
          exact absurd hfalse (by decide)
        · rintro (hnone | ⟨cfg', hc', hor⟩)
          · cases hnone
          · injection hc' with hcc
            subst hcc
            exfalso
            apply hf
            rcases hor with h1 | h1 <;> simp [h1]
      · intro cfg' hc' hst hu
        injection hc' with hcc
        subst hcc
        refine ⟨rfl, ?_, ?_⟩
        · rw [schedule_configs]
          simp
        · exact schedule_registers _ cid

/-- Closed witness for C8 (amended): a fully configured connection (station
and user present) starts successfully. -/
theorem c8_start_monitoring_amended_witness :
    (start_monitoring
      ⟨fun c => c == "c2",
       fun c => if c == "c2" then some ⟨5, false, some "st1", some "u1", none, none⟩ else none,
       fun _ => none, []⟩ "c2").1 = true :=
  ((c8_start_monitoring_amended
      ⟨fun c => c == "c2",
       fun c => if c == "c2" then some ⟨5, false, some "st1", some "u1", none, none⟩ else none,
       fun _ => none, []⟩ "c2").2
    ⟨5, false, some "st1", some "u1", none, none⟩ rfl rfl rfl).1

/-- Helper: `_cancel_scheduled_task` preserves the registry invariant. -/
theorem regInv_cancel (s : WSState) (cid : String) (h : RegInv s) :
    RegInv (cancel_scheduled_task s cid) := by
  constructor
  · intro c
    rw [congrFun (cancel_active s cid) c, congrFun (cancel_configs s cid) c]
    exact h.1 c
  · intro c hsc
    rw [congrFun (cancel_active s cid) c]
    by_cases hc : c = cid
    · subst hc
      rw [cancel_scheduled_self] at hsc
      simp at hsc
    · rw [cancel_scheduled_other s cid c hc] at hsc
      exact h.2 c hsc

/-- Helper: replacing the config at an active connection's key preserves the
registry invariant. -/
theorem regInv_set_config (s : WSState) (cid : String) (cfg : WSConfig)
    (hact : s.active_connections cid = true) (h : RegInv s) :
    RegInv { s with connection_configs := fun c =>
      if c = cid then some cfg else s.connection_configs c } := by
  constructor
  · intro c
    dsimp only
    by_cases hc : c = cid
    · subst hc
      simp [hact]
    · rw [if_neg hc]
      exact h.1 c
  · exact h.2

/-- Helper: `_schedule_monitoring` on an active connection preserves the
registry invariant. -/
theorem regInv_schedule (s : WSState) (cid : String)
    (hact : s.active_connections cid = true) (h : RegInv s) :
    RegInv (schedule_monitoring s cid) := by
  constructor
  · intro c
    rw [congrFun (schedule_active s cid) c, congrFun (schedule_configs s cid) c]
    exact h.1 c
  · intro c hsc
    rw [congrFun (schedule_active s cid) c]
    unfold schedule_monitoring at hsc
    dsimp only at hsc
    by_cases hc : c = cid
    · rw [hc]
      exact hact
    · rw [if_neg hc, cancel_scheduled_other s cid c hc] at hsc
      exact h.2 c hsc

/-- Helper: `disconnect` preserves the registry invariant. -/
theorem regInv_disconnect (s : WSState) (cid : String) (h : RegInv s) :
    RegInv (disconnect s cid) := by
  unfold disconnect
  by_cases hact : s.active_connections cid = true
  · rw [if_pos hact]
    constructor
    · intro c
      dsimp only
      by_cases hc : c = cid
      · simp [hc]
      · rw [if_neg hc, if_neg hc, congrFun (cancel_active s cid) c,
            congrFun (cancel_configs s cid) c]
        exact h.1 c
    · intro c hsc
      dsimp only at hsc ⊢
      by_cases hc : c = cid
      · rw [hc, cancel_scheduled_self] at hsc
        simp at hsc
      · rw [cancel_scheduled_other s cid c hc] at hsc
        rw [if_neg hc, congrFun (cancel_active s cid) c]
        exact h.2 c hsc
  · rw [if_neg hact]
    exact h

/-- Helper: `broadcast`'s fold of disconnects preserves the registry
invariant. -/
theorem regInv_foldl_disconnect (l : List String) (s : WSState) (h : RegInv s) :
    RegInv (l.foldl disconnect s) := by
  induction l generalizing s with
  | nil => exact h
  | cons a l ih => exact ih _ (regInv_disconnect s a h)

/-- Helper: every operation preserves the registry invariant. -/
theorem regInv_step (s : WSState) (op : WSOp) (h : RegInv s) :
    RegInv (step s op) := by
  cases op with
  | connect cid ts =>
    constructor
    · intro c
      dsimp only [step, connect]
      by_cases hc : c = cid
      · subst hc
        simp
      · have hb : (c == cid) = false := by simp [hc]
        rw [hb, if_neg hc]
        simpa using h.1 c
    · intro c hsc
      dsimp only [step, connect] at hsc ⊢
      have := h.2 c hsc
      rw [this]
      simp
  | disconnect cid => exact regInv_disconnect s cid h
  | configure cid i st u a =>
    dsimp only [step]
    unfold configure_monitoring
    by_cases hact : s.active_connections cid = false
    · rw [if_pos hact]
      exact h
    · rw [if_neg hact]
      dsimp only
      have hact' : s.active_connections cid = true := by
        cases hb : s.active_connections cid
        · exact absurd hb hact
        · rfl
      have hact1 : (cancel_scheduled_task s cid).active_connections cid = true := by
        rw [congrFun (cancel_active s cid) cid]
        exact hact'
      by_cases hia : a = true
      · rw [if_pos hia]
        exact regInv_schedule _ cid hact1
          (regInv_set_config _ cid _ hact1 (regInv_cancel s cid h))
      · rw [if_neg hia]
        exact regInv_set_config _ cid _ hact1 (regInv_cancel s cid h)
  | startMon cid =>
    dsimp only [step]
    unfold start_monitoring
    cases hcfg : s.connection_configs cid with
    | none => exact h
    | some cfg =>
      dsimp only
      by_cases hf : (falsyStr cfg.station_id || falsyStr cfg.user_id) = true
      · rw [if_pos hf]
        exact h
      · rw [if_neg hf]
        have hact1 : s.active_connections cid = true := by
          apply (h.1 cid).mpr
          rw [hcfg]
          rfl
        exact regInv_schedule _ cid hact1 (regInv_set_config s cid _ hact1 h)
  | stopMon cid =>
    dsimp only [step]
    unfold stop_monitoring
    cases hcfg : s.connection_configs cid with
    | none => exact h
    | some cfg =>
      dsimp only
      have hact1 : (cancel_scheduled_task s cid).active_connections cid = true := by
        rw [congrFun (cancel_active s cid) cid]
        apply (h.1 cid).mpr
        rw [hcfg]
        rfl
      exact regInv_set_config _ cid _ hact1 (regInv_cancel s cid h)
  | broadcast failed => exact regInv_foldl_disconnect failed s h
  | taskFinish tid => exact h

/-- C10: every public `ConnectionManager` operation preserves the registry
invariant (the key sets of `active_connections` and `connection_configs`
coincide, and `scheduled_tasks`' keys are a subset of them); `connect` inserts
the connection into both maps with the default config, `disconnect` removes
the task registration and both entries, configure/start/stop leave the key
sets unchanged, and `broadcast` removes keys only by disconnecting the failed
connections. -/
theorem c10_registry_invariant (s : WSState) (hinv : RegInv s) :
    (∀ op : WSOp, RegInv (step s op)) ∧
    (∀ cid ts c,
      (connect s cid ts).active_connections c = (c == cid || s.active_connections c) ∧
      (connect s cid ts).connection_configs c =
        (if c = cid then some ⟨5, false, none, none, none, some ts⟩
         else s.connection_configs c)) ∧
    (∀ cid, s.active_connections cid = true → ∀ c,
      (disconnect s cid).active_connections c = (decide (c ≠ cid) && s.active_connections c) ∧
      ((disconnect s cid).connection_configs c).isSome =
        (decide (c ≠ cid) && (s.connection_configs c).isSome) ∧
      (disconnect s cid).scheduled_tasks cid = none) ∧
    (∀ cid i st u a c,
      (configure_monitoring s cid i st u a).2.active_connections c = s.active_connections c ∧
      ((configure_monitoring s cid i st u a).2.connection_configs c).isSome =
        (s.connection_configs c).isSome) ∧
    (∀ cid c,
      (start_monitoring s cid).2.active_connections c = s.active_connections c ∧
      ((start_monitoring s cid).2.connection_configs c).isSome =
        (s.connection_configs c).isSome ∧
      (stop_monitoring s cid).2.active_connections c = s.active_connections c ∧
      ((stop_monitoring s cid).2.connection_configs c).isSome =
        (s.connection_configs c).isSome) ∧
    (∀ failed, broadcast s failed = failed.foldl disconnect s) := by
  refine ⟨fun op => regInv_step s op hinv, fun cid ts c => ⟨rfl, rfl⟩, ?_, ?_, ?_,
    fun failed => rfl⟩
  · intro cid hact c
    unfold disconnect
    rw [if_pos hact]
    dsimp only
    refine ⟨?_, ?_, ?_⟩
    · by_cases hc : c = cid
      · subst hc
        simp
      · rw [if_neg hc, congrFun (cancel_active s cid) c]
        simp [hc]
    · by_cases hc : c = cid
      · subst hc
        simp
      · rw [if_neg hc, congrFun (cancel_configs s cid) c]
        simp [hc]
    · exact cancel_scheduled_self s cid
  · intro cid i st u a c
    unfold configure_monitoring
    by_cases hact : s.active_connections cid = false
    · rw [if_pos hact]
      exact ⟨rfl, rfl⟩
    · rw [if_neg hact]
      dsimp only
      have hact' : s.active_connections cid = true := by
        cases hb : s.active_connections cid
        · exact absurd hb hact
        · rfl
      have hcfg : (s.connection_configs cid).isSome = true := (hinv.1 cid).mp hact'
      by_cases hia : a = true
      · rw [if_pos hia]
        constructor
        · rw [congrFun (schedule_active _ cid) c, congrFun (cancel_active s cid) c]
        · rw [congrFun (schedule_configs _ cid) c]
          dsimp only
          by_cases hc : c = cid
          · subst hc
            rw [if_pos rfl, hcfg]
            rfl
          · rw [if_neg hc, congrFun (cancel_configs s cid) c]
      · rw [if_neg hia]
        constructor
        · rw [congrFun (cancel_active s cid) c]
        · dsimp only
          by_cases hc : c = cid
          · subst hc
            rw [if_pos rfl, hcfg]
            rfl
          · rw [if_neg hc, congrFun (cancel_configs s cid) c]
  · intro cid c
    constructor
    · unfold start_monitoring
      cases hcfg : s.connection_configs cid with
      | none => rfl
      | some cfg =>
        dsimp only
        by_cases hf : (falsyStr cfg.station_id || falsyStr cfg.user_id) = true
        · rw [if_pos hf]
        · rw [if_neg hf]
          dsimp only
          rw [congrFun (schedule_active _ cid) c]
    constructor
    · unfold start_monitoring
      cases hcfg : s.connection_configs cid with
      | none => rfl
      | some cfg =>
        dsimp only
        by_cases hf : (falsyStr cfg.station_id || falsyStr cfg.user_id) = true
        · rw [if_pos hf]
        · rw [if_neg hf]
          dsimp only
          rw [congrFun (schedule_configs _ cid) c]
          dsimp only
          by_cases hc : c = cid
          · subst hc
            rw [if_pos rfl, hcfg]
            rfl
          · rw [if_neg hc]
    constructor
    · unfold stop_monitoring
      cases hcfg : s.connection_configs cid with
      | none => rfl
      | some cfg =>
        dsimp only
        rw [congrFun (cancel_active s cid) c]
    · unfold stop_monitoring
      cases hcfg : s.connection_configs cid with
      | none => rfl
      | some cfg =>
        dsimp only
        by_cases hc : c = cid
        · subst hc
          rw [if_pos rfl, hcfg]
          rfl
        · rw [if_neg hc, congrFun (cancel_configs s cid) c]

/-- Closed witness for C10: the empty registry satisfies the invariant and a
`connect` step preserves it. -/
theorem c10_registry_invariant_witness :
    RegInv (step initState (WSOp.connect "c1" "t0")) := by
  have h0 : RegInv initState := by
    constructor
    · intro c
      simp [initState]
    · intro c hsc
      simp [initState] at hsc
  exact (c10_registry_invariant initState h0).1 (WSOp.connect "c1" "t0")

open Monitoring

/-- Helper: members of a session put are the put item or prior members. -/
theorem mem_putSession {l : List MonSession} {s t : MonSession}
    (ht : t ∈ putSession l s) : t = s ∨ t ∈ l := by
  induction l with
  | nil =>
    simp [putSession] at ht
    exact Or.inl ht
  | cons a as ih =>
    unfold putSession at ht
    split at ht
    · rcases List.mem_cons.mp ht with h | h
      · exact Or.inl h
      · exact Or.inr (List.mem_cons_of_mem a h)
    · rcases List.mem_cons.mp ht with h | h
      · exact Or.inr (h ▸ List.mem_cons_self a as)
      · rcases ih h with h' | h'
        · exact Or.inl h'
        · exact Or.inr (List.mem_cons_of_mem a h')

/-- Helper: the net effect of `update_monitoring_session` is a put of the
session item. -/
theorem update_eq_put (store : MonStore) (s : MonSession) :
    update_monitoring_session store s =
      { store with sessions := putSession store.sessions s } := by
  unfold update_monitoring_session save_monitoring_session
  cases get_session_by_id store (some s.station_id) s.session_id <;> rfl

/-- C2 evaluation: the claimed deactivate-then-persist behavior of
`create_session` never executes. For every store and every argument vector
the call raises: `get_active_session_by_station` passes `filter_expression`
and `expression_values` to `DynamoClient.query_items`, which accepts only
`key_name`, `key_value` and `index_name`, so Python raises `TypeError` on
every invocation and `create_session` re-raises it before reading or writing
any session. -/
theorem c2_create_session_always_raises (store : MonStore) (station user : String)
    (interval : Int) (md : List (String × String)) (fresh_sid t0 now : String) :
    create_session store station user interval md fresh_sid t0 now =
      .error (typeErrorUnexpectedKwarg "query_items" "filter_expression") := rfl

/-- C6 evaluation at the failing input: a store holding session `sess-1` at
station `st-1` whose capture `cap-1` exists. `update_capture_status` finds the
capture, but then looks the session up with `station_id=None` — key
`STATION#None` — finds nothing, returns `none` and persists nothing, although
the claim (and spec §4.3) say the updated capture is returned and persisted.
-/
theorem c6_update_capture_status_none_bug :
    (update_capture_status
      ⟨[⟨"sess-1", "st-1", "u1", 5, "t0", none, true, ["cap-1"], []⟩],
       [("sess-1", ⟨"cap-1", "img-1", none, [], "captured", []⟩)]⟩
      "sess-1" "cap-1" "processed" none none).1 = none ∧
    (update_capture_status
      ⟨[⟨"sess-1", "st-1", "u1", 5, "t0", none, true, ["cap-1"], []⟩],
       [("sess-1", ⟨"cap-1", "img-1", none, [], "captured", []⟩)]⟩
      "sess-1" "cap-1" "processed" none none).2 =
      ⟨[⟨"sess-1", "st-1", "u1", 5, "t0", none, true, ["cap-1"], []⟩],
       [("sess-1", ⟨"cap-1", "img-1", none, [], "captured", []⟩)]⟩ ∧
    (get_capture_results
      ⟨[⟨"sess-1", "st-1", "u1", 5, "t0", none, true, ["cap-1"], []⟩],
       [("sess-1", ⟨"cap-1", "img-1", none, [], "captured", []⟩)]⟩
      "sess-1").find? (fun c => decide (c.capture_id = "cap-1")) =
      some ⟨"cap-1", "img-1", none, [], "captured", []⟩ := by
  refine ⟨rfl, rfl, rfl⟩

/-- Helper for C9: `save_capture_result` preserves duplicate-free capture
lists on every session. -/
theorem nodupCaptures_save (store : MonStore) (station sid : String)
    (cap : CaptureRec) (h : NodupCaptures store) :
    NodupCaptures (save_capture_result store station sid cap) := by
  unfold save_capture_result update_session_captures
  cases hses : get_session_by_id store (some station) sid with
  | none => exact h
  | some sess =>
    dsimp only
    by_cases hmem : cap.capture_id ∈ sess.captures
    · rw [if_pos hmem]
      exact h
    · rw [if_neg hmem, update_eq_put]
      intro t ht
      rcases mem_putSession ht with h' | h'
      · subst h'
        have hsess_mem := List.mem_of_find?_eq_some hses
        have hnd := h sess hsess_mem
        simp [List.nodup_append, hnd, hmem]
      · exact h t h'

/-- C9: recording a capture whose id is already in the owning session's
`captures` list leaves the session items unchanged (idempotence); one capture
recording preserves duplicate-freeness of every session's capture list; hence
after any sequence of capture recordings starting from a well-formed store no
session's list contains duplicate capture ids. -/
theorem c9_capture_append_idempotent (store : MonStore) (station sid : String)
    (cap : CaptureRec) (sess : MonSession)
    (hses : get_session_by_id store (some station) sid = some sess)
    (hmem : cap.capture_id ∈ sess.captures) :
    (save_capture_result store station sid cap).sessions = store.sessions ∧
    (∀ (store2 : MonStore) (station2 sid2 : String) (cap2 : CaptureRec),
      NodupCaptures store2 → NodupCaptures (save_capture_result store2 station2 sid2 cap2)) ∧
    (∀ (ops : List (String × String × CaptureRec)) (store2 : MonStore),
      NodupCaptures store2 →
      NodupCaptures (ops.foldl (fun st p => save_capture_result st p.1 p.2.1 p.2.2) store2)) := by
  refine ⟨?_, nodupCaptures_save, ?_⟩
  · unfold save_capture_result update_session_captures
    rw [hses]
    dsimp only
    rw [if_pos hmem]
  · intro ops
    induction ops with
    | nil => exact fun _ h => h
    | cons p ps ih => exact fun store2 h => ih _ (nodupCaptures_save store2 p.1 p.2.1 p.2.2 h)

/-- Closed witness for C9: re-recording capture `cap-1` of session `sess-1`
leaves the session items untouched. -/
theorem c9_capture_append_idempotent_witness :
    (save_capture_result
      ⟨[⟨"sess-1", "st-1", "u1", 5, "t0", none, true, ["cap-1"], []⟩],
       [("sess-1", ⟨"cap-1", "img-1", none, [], "captured", []⟩)]⟩
      "st-1" "sess-1" ⟨"cap-1", "img-1", none, [], "captured", []⟩).sessions =
      [⟨"sess-1", "st-1", "u1", 5, "t0", none, true, ["cap-1"], []⟩] :=
  (c9_capture_append_idempotent
    ⟨[⟨"sess-1", "st-1", "u1", 5, "t0", none, true, ["cap-1"], []⟩],
     [("sess-1", ⟨"cap-1", "img-1", none, [], "captured", []⟩)]⟩
    "st-1" "sess-1" ⟨"cap-1", "img-1", none, [], "captured", []⟩
    ⟨"sess-1", "st-1", "u1", 5, "t0", none, true, ["cap-1"], []⟩
    rfl (by simp)).1
